import Mathlib

/-
Verification of the sessionkit repository: a shallow embedding of the
session engine (SessionKit.ts), the Redis lock provider
(RedisLockProvider.ts) and the Redis client helpers (redisClient.ts,
RedisSessionStore.ts), together with theorems settling the specification
claims.

Conventions of the embedding:
- JavaScript millisecond timestamps are modelled as Int; each engine
  operation receives one fixed `now` value (nowMs() frozen for the
  duration of a single operation).
- Fallible store and lock calls are modelled by explicit Boolean or
  Option-valued outcome parameters (oracles): the code path taken on
  success or failure of each call site is translated faithfully.
- Promise-returning functions become pure functions returning Except
  plus explicit resulting state (store contents, cookie effects,
  request auth slot).
-/

namespace SessionKitModel

/-- Stable error codes surfaced by SessionKit core and adapters
(errors.ts, ErrorCode). -/
inductive ErrorCode where
  | UNAUTHORIZED
  | INVALID_SESSION
  | SESSION_EXPIRED
  | TOKEN_REFRESH_FAILED
  | LOCK_TIMEOUT
  | STORE_UNAVAILABLE
  | INTERNAL_ERROR
deriving DecidableEq, Repr

/-- Canonical error type used across SessionKit packages (errors.ts,
SessionKitError); the cause and details fields carry no control flow and
are omitted. -/
structure SessionKitError where
  code : ErrorCode
  message : String
deriving DecidableEq, Repr

/-- Persisted session record stored by a SessionStore (types.ts,
StoredSession). -/
structure StoredSession (P : Type) where
  payload : P
  createdAt : Int
  expiresAt : Int
deriving DecidableEq, Repr

/-- Authentication state attached to each request context (types.ts,
AuthContext). -/
structure AuthContext (P R : Type) where
  sessionId : Option String
  session : Option (StoredSession P)
  principal : Option R
  isAuthenticated : Bool
deriving DecidableEq, Repr

/-- Session store contents: the data held by a SessionStore, keyed by
session id. -/
abbrev SessStore (P : Type) := String → Option (StoredSession P)

/-- Writes one record into the store (store.set data effect). -/
def storeSet {P : Type} (s : SessStore P) (key : String) (v : StoredSession P) :
    SessStore P :=
  fun k => if k = key then some v else s k

/-- Deletes one record from the store (store.del data effect). -/
def storeDel {P : Type} (s : SessStore P) (key : String) : SessStore P :=
  fun k => if k = key then none else s k

/-- Modelled from the spec: utils/time.ts is not present under src/; the
spec fixes `expiresAt = now + ttl*1000` and `extend TTL to
now + ttlSeconds*1000`, so secondsToMs multiplies by 1000. -/
def secondsToMs (s : Int) : Int := s * 1000

/-- Policy applied when a token refresh fails (types.ts,
token.onRefreshFail). -/
inductive RefreshFailPolicy where
  | unauth
  | revoke
deriving DecidableEq, Repr

/-- Result of a successful token.refresh call (types.ts, token.refresh
resolved value). -/
structure RefreshSuccess (P : Type) where
  payload : P
  ttlSeconds : Option Int

/-- Token refresh descriptor (types.ts, SessionKitOptions.token). A
throwing refresh callback is modelled as returning Except. -/
structure TokenConfig (P : Type) where
  shouldRefresh : P → Int → Bool
  refresh : P → Except Unit (RefreshSuccess P)
  onRefreshFail : Option RefreshFailPolicy

/-- Engine configuration (types.ts, SessionKitOptions), restricted to
the fields that drive control flow in SessionKit.ts. storeHasTouch
records whether the configured store implements the optional touch
method. A throwing payloadTransformer is modelled as returning Except. -/
structure SessionConfig (P R : Type) where
  ttlSeconds : Int
  rolling : Bool
  touchEverySeconds : Option Int
  renewBeforeSeconds : Option Int
  principalFactory : P → R
  payloadTransformer : Option (P → Except Unit P)
  token : Option (TokenConfig P)
  storeHasTouch : Bool

/-- Threshold used by the rolling touch (SessionKit.ts,
defaultRenewBeforeSeconds): renewBeforeSeconds ?? touchEverySeconds ?? 60. -/
def defaultRenewBeforeSeconds {P R : Type} (cfg : SessionConfig P R) : Int :=
  cfg.renewBeforeSeconds.getD (cfg.touchEverySeconds.getD 60)

/-- Canonical unauthenticated context (SessionKit.ts, unauthContext). -/
def unauthContext {P R : Type} : AuthContext P R :=
  { sessionId := none, session := none, principal := none, isAuthenticated := false }

/-- Reads the request auth slot (SessionKit.ts, SessionKit.getAuth):
returns whatever was last attached, else the canonical unauthenticated
value; stripInternal copies the four public fields and is the identity
in this model. -/
def getAuth {P R : Type} (slot : Option (AuthContext P R)) : AuthContext P R :=
  match slot with
  | some found => found
  | none => unauthContext

/-- Result value returned by signIn (types.ts, SignInResult). -/
structure SignInResult (R : Type) where
  sessionId : String
  principal : R
  expiresAt : Int

/-- Effects and result of a signIn call. cookie is the value written to
the session cookie; auth is the value written to the request auth slot
(none when hydrateContext is false). -/
structure SignInOutcome (P R : Type) where
  store : SessStore P
  cookie : Option String
  auth : Option (AuthContext P R)
  result : SignInResult R

/-- Embedding of SessionKit.signIn (SessionKit.ts lines 70-105).
sessionId stands for the fresh unique id produced by newSessionId();
setOk is the outcome of the store.set call (false: the store threw). -/
def signIn {P R : Type} (cfg : SessionConfig P R) (store : SessStore P)
    (now : Int) (sessionId : String) (payload : P)
    (optTtlSeconds : Option Int) (hydrateContext : Option Bool)
    (setOk : Bool) : Except SessionKitError (SignInOutcome P R) :=
  let ttl := optTtlSeconds.getD cfg.ttlSeconds
  let createdAt := now
  let expiresAt := createdAt + secondsToMs ttl
  if setOk then
    let record : StoredSession P := ⟨payload, createdAt, expiresAt⟩
    let principal := cfg.principalFactory payload
    let auth : Option (AuthContext P R) :=
      if hydrateContext.getD true then
        some ⟨some sessionId, some record, some principal, true⟩
      else none
    .ok ⟨storeSet store sessionId record, some sessionId, auth,
         ⟨sessionId, principal, expiresAt⟩⟩
  else
    .error ⟨.STORE_UNAVAILABLE, "Failed to save session."⟩

/-- Effects of a signOut call: resulting store contents, whether the
transport cookie was cleared, and the value written to the request auth
slot (none when signOut aborted before reaching it). -/
structure SignOutOutcome (P R : Type) where
  store : SessStore P
  cookieCleared : Bool
  auth : Option (AuthContext P R)

/-- Embedding of SessionKit.signOut (SessionKit.ts lines 107-129).
cookie is the incoming session cookie; delOk is the outcome of the
store.del call. Returns the effects plus the error thrown, if any: when
the delete fails and alwaysClearCookie is false, the error propagates
before the cookie is cleared or the auth slot reset. -/
def signOut {P R : Type} (store : SessStore P) (cookie : Option String)
    (alwaysClearCookie : Option Bool) (delOk : Bool) :
    SignOutOutcome P R × Option SessionKitError :=
  let alwaysClear := alwaysClearCookie.getD true
  match cookie with
  | none => (⟨store, true, some unauthContext⟩, none)
  | some sid =>
    if delOk then
      (⟨storeDel store sid, true, some unauthContext⟩, none)
    else if alwaysClear then
      (⟨store, true, some unauthContext⟩, none)
    else
      (⟨store, false, none⟩, some ⟨.STORE_UNAVAILABLE, "Failed to delete session."⟩)

/-- Outcome parameters for one maybeRefreshTokenSession call. lockFail:
some e when lockProvider.withLock itself throws e before running the
critical section (lock acquisition failure or lock infrastructure
failure); innerGetOk / innerSetOk: outcomes of the store.get and
store.set calls inside the critical section; revokeDelOk: outcome of the
best-effort store.del in handleRefreshFailure. -/
structure RefreshOracles where
  lockFail : Option SessionKitError
  innerGetOk : Bool
  innerSetOk : Bool
  revokeDelOk : Bool

/-- Embedding of the async closure passed to lockProvider.withLock inside
SessionKit.maybeRefreshTokenSession (SessionKit.ts lines 227-265): the
double-checked refresh protocol. Returns the refreshed (or re-read)
session, or none when the session vanished or expired, together with the
resulting store contents. -/
def refreshCriticalSection {P R : Type} (cfg : SessionConfig P R)
    (tok : TokenConfig P) (store : SessStore P) (sessionId : String)
    (now : Int) (innerGetOk innerSetOk : Bool) :
    Except SessionKitError (Option (StoredSession P) × SessStore P) :=
  if innerGetOk then
    match store sessionId with
    | none => .ok (none, store)
    | some latest =>
      if now ≥ latest.expiresAt then .ok (none, store)
      else if tok.shouldRefresh latest.payload now then
        match tok.refresh latest.payload with
        | .error _ => .error ⟨.TOKEN_REFRESH_FAILED, "Failed to refresh token."⟩
        | .ok refreshed =>
          let ttlSeconds := refreshed.ttlSeconds.getD cfg.ttlSeconds
          let nextStored : StoredSession P :=
            { latest with payload := refreshed.payload,
                          expiresAt := now + secondsToMs ttlSeconds }
          if innerSetOk then
            .ok (some nextStored, storeSet store sessionId nextStored)
          else
            .error ⟨.STORE_UNAVAILABLE, "Failed to save session."⟩
      else .ok (some latest, store)
  else
    .error ⟨.STORE_UNAVAILABLE, "Failed to read session."⟩

/-- Result of the lockProvider.withLock call in maybeRefreshTokenSession:
either the lock machinery itself throws (orc.lockFail) or the critical
section runs to its own outcome. -/
def lockedRefreshResult {P R : Type} (cfg : SessionConfig P R)
    (tok : TokenConfig P) (store : SessStore P) (sessionId : String)
    (now : Int) (orc : RefreshOracles) :
    Except SessionKitError (Option (StoredSession P) × SessStore P) :=
  match orc.lockFail with
  | some e => .error e
  | none => refreshCriticalSection cfg tok store sessionId now
      orc.innerGetOk orc.innerSetOk

/-- Outcome of maybeRefreshTokenSession: the session handed back to
buildAuthContext (none resolves unauthenticated), the resulting store
contents, and whether the transport cookie was cleared (done by
handleRefreshFailure). -/
structure RefreshOutcome (P : Type) where
  session : Option (StoredSession P)
  store : SessStore P
  cookieCleared : Bool

/-- Effects of SessionKit.handleRefreshFailure (SessionKit.ts lines
278-297): best-effort revoke when onRefreshFail is revoke, then clear
the transport cookie; the resolution becomes unauthenticated. -/
def refreshFailureOutcome {P : Type} (tok : TokenConfig P)
    (store : SessStore P) (sessionId : String) (revokeDelOk : Bool) :
    RefreshOutcome P :=
  let store' :=
    if tok.onRefreshFail.getD .unauth = .revoke ∧ revokeDelOk then
      storeDel store sessionId
    else store
  ⟨none, store', true⟩

/-- Embedding of SessionKit.maybeRefreshTokenSession (SessionKit.ts
lines 209-276): skip when no token descriptor or refresh not due; run
the double-checked refresh under the lock; catch only
TOKEN_REFRESH_FAILED (converting it to an unauthenticated outcome via
handleRefreshFailure) and rethrow every other error. -/
def maybeRefreshTokenSession {P R : Type} (cfg : SessionConfig P R)
    (store : SessStore P) (sessionId : String) (stored : StoredSession P)
    (now : Int) (orc : RefreshOracles) :
    Except SessionKitError (RefreshOutcome P) :=
  match cfg.token with
  | none => .ok ⟨some stored, store, false⟩
  | some tok =>
    if tok.shouldRefresh stored.payload now then
      match lockedRefreshResult cfg tok store sessionId now orc with
      | .ok (s, st) => .ok ⟨s, st, false⟩
      | .error e =>
        if e.code = .TOKEN_REFRESH_FAILED then
          .ok (refreshFailureOutcome tok store sessionId orc.revokeDelOk)
        else
          .error e
    else .ok ⟨some stored, store, false⟩

/-- Outcome of a maybeTouch call: the possibly updated auth context and
store, and whether a touch (store TTL extension) was attempted. -/
structure TouchOutcome (P R : Type) where
  auth : AuthContext P R
  store : SessStore P
  touched : Bool

/-- Embedding of SessionKit.maybeTouch (SessionKit.ts lines 299-330).
remainingSeconds = Math.floor((expiresAt - now)/1000) is Int.fdiv; a
touch is attempted only when remainingSeconds ≤ renewBeforeSeconds.
touchOk is the outcome of the store.touch / store.set call (false: it
threw, the failure is logged and swallowed, so neither the store nor the
in-memory expiresAt is updated). The store.touch fast path is modelled
with MapSessionStore semantics: the record expiry becomes
now + ttlSeconds*1000. The else branch with auth.session null is
unreachable from buildAuthContext and modelled as leaving state
unchanged. -/
def maybeTouch {P R : Type} (cfg : SessionConfig P R) (sessionId : String)
    (renewBeforeSeconds ttlSeconds : Int) (auth : AuthContext P R)
    (store : SessStore P) (now : Int) (touchOk : Bool) : TouchOutcome P R :=
  let expiresAt := (auth.session.map StoredSession.expiresAt).getD 0
  let remainingSeconds := Int.fdiv (expiresAt - now) 1000
  if remainingSeconds > renewBeforeSeconds then
    ⟨auth, store, false⟩
  else if touchOk then
    if cfg.storeHasTouch then
      let store' :=
        match store sessionId with
        | some e => storeSet store sessionId
            { e with expiresAt := now + secondsToMs ttlSeconds }
        | none => store
      let auth' := { auth with
        session := auth.session.map fun s =>
          { s with expiresAt := now + secondsToMs ttlSeconds } }
      ⟨auth', store', true⟩
    else
      match auth.session with
      | some s =>
        let s' := { s with expiresAt := now + secondsToMs ttlSeconds }
        ⟨{ auth with session := some s' }, storeSet store sessionId s', true⟩
      | none => ⟨auth, store, true⟩
  else
    ⟨auth, store, true⟩

/-- Outcome parameters for one buildAuthContext call: getOk is the
outcome of the initial store.get; refresh covers the refresh path;
touchOk the rolling-touch store call. -/
structure ResolveOracles where
  getOk : Bool
  refresh : RefreshOracles
  touchOk : Bool

/-- Outcome of one resolution (middleware call of buildAuthContext): the
auth context attached to the request, the resulting store contents,
whether the transport cookie was cleared, and whether a rolling touch
was attempted. -/
structure ResolveOutcome (P R : Type) where
  auth : AuthContext P R
  store : SessStore P
  cookieCleared : Bool
  touched : Bool

/-- Applies the optional payload transformer to a freshly read session
(SessionKit.ts lines 165-178): only the payload may change. -/
def applyTransformer {P R : Type} (cfg : SessionConfig P R)
    (stored : StoredSession P) : Except Unit (StoredSession P) :=
  match cfg.payloadTransformer with
  | none => .ok stored
  | some f =>
    match f stored.payload with
    | .ok p => .ok { stored with payload := p }
    | .error e => .error e

/-- Embedding of SessionKit.buildAuthContext (SessionKit.ts lines
143-207), the per-request resolution run by the engine middleware.
cookie is the incoming session cookie value. -/
def buildAuthContext {P R : Type} (cfg : SessionConfig P R)
    (store : SessStore P) (cookie : Option String) (now : Int)
    (orc : ResolveOracles) : Except SessionKitError (ResolveOutcome P R) :=
  match cookie with
  | none => .ok ⟨unauthContext, store, false, false⟩
  | some sid =>
    if orc.getOk then
      match store sid with
      | none => .ok ⟨unauthContext, store, true, false⟩
      | some stored0 =>
        match applyTransformer cfg stored0 with
        | .error _ => .ok ⟨unauthContext, store, true, false⟩
        | .ok stored =>
          if now ≥ stored.expiresAt then
            .ok ⟨unauthContext, store, true, false⟩
          else
            match maybeRefreshTokenSession cfg store sid stored now orc.refresh with
            | .error e => .error e
            | .ok mr =>
              match mr.session with
              | none => .ok ⟨unauthContext, mr.store, mr.cookieCleared, false⟩
              | some st =>
                let auth0 : AuthContext P R :=
                  ⟨some sid, some st, some (cfg.principalFactory st.payload), true⟩
                if cfg.rolling then
                  let t := maybeTouch cfg sid (defaultRenewBeforeSeconds cfg)
                    cfg.ttlSeconds auth0 mr.store now orc.touchOk
                  .ok ⟨t.auth, t.store, mr.cookieCleared, t.touched⟩
                else
                  .ok ⟨auth0, mr.store, mr.cookieCleared, false⟩
    else
      .error ⟨.STORE_UNAVAILABLE, "Failed to read session."⟩

/-- Redis key-value contents visible to the lock and store helpers
(string values; TTL metadata is tracked separately where a claim needs
it). -/
abbrev KV := String → Option String

/-- Embedding of releaseLockIfOwned (redisClient.ts lines 165-192): the
compare-and-delete release. Both the Lua-script path and the get/del
fallback delete the key exactly when the stored value equals the
releasing attempt token. Returns the resulting key-value contents. -/
def releaseLockIfOwned (kv : KV) (key tok : String) : KV :=
  match kv key with
  | some current =>
    if current = tok then fun k => if k = key then none else kv k
    else kv
  | none => kv

/-- JavaScript number restricted to the values normalizeTtl
distinguishes: NaN, the infinities, and finite values (modelled as
rationals; every float is rational). -/
inductive JsNum where
  | nan
  | posInf
  | negInf
  | fin (q : ℚ)
deriving DecidableEq, Repr

/-- Embedding of normalizeTtl (redisClient.ts lines 118-124): the code
computes ttl = Math.floor(ttlSeconds) and rejects it when
Number.isFinite(ttl) is false or ttl ≤ 0. Math.floor fixes NaN and the
infinities and floors finite values, so the check is equivalent to: the
input is non-finite, or the floor of the finite input is ≤ 0; on
success the floored integer is returned. -/
def normalizeTtl (ttlSeconds : JsNum) : Except String Int :=
  match ttlSeconds with
  | .fin q =>
    let ttl := q.floor
    if ttl ≤ 0 then .error "ttlSeconds must be a positive integer."
    else .ok ttl
  | _ => .error "ttlSeconds must be a positive integer."

/-- Retry loop body of RedisLockProvider.acquireLock (RedisLockProvider.ts
lines 103-114): while the clock has not passed the deadline, issue one
setNX attempt (attempt k is the outcome of the k-th conditional
set-if-absent) and on failure sleep retryDelayMs. The model advances the
clock by retryDelayMs per failed attempt; the fuel argument bounds the
recursion and, seeded with acquireTimeoutMs + 1 and retryDelayMs ≥ 1, is
never exhausted before the deadline check fails. Returns whether the
lock was acquired and how many setNX attempts were issued. -/
def acquireLockGo (attempt : Nat → Bool) (retryDelayMs deadline : Nat) :
    Nat → Nat → Nat → Bool × Nat
  | 0, k, _ => (false, k)
  | fuel + 1, k, t =>
    if t ≤ deadline then
      if attempt k then (true, k + 1)
      else acquireLockGo attempt retryDelayMs deadline fuel (k + 1) (t + retryDelayMs)
    else (false, k)

/-- Embedding of RedisLockProvider.acquireLock (RedisLockProvider.ts
lines 97-115): deadline = now + acquireTimeoutMs, retry from the first
attempt at the current time. -/
def acquireLock (attempt : Nat → Bool) (retryDelayMs acquireTimeoutMs now : Nat) :
    Bool × Nat :=
  acquireLockGo attempt retryDelayMs (now + acquireTimeoutMs)
    (acquireTimeoutMs + 1) 0 now

/-- Error raised by withLock: either the plain JavaScript Error thrown by
normalizeTtl, or a SessionKitError. -/
inductive WithLockError where
  | jsError (msg : String)
  | kit (e : SessionKitError)
deriving DecidableEq, Repr

/-- Outcome of one withLock call: its result, how many times fn was
invoked, and how many store commands were issued (setNX attempts plus
the release call). -/
structure WithLockOutcome (T : Type) where
  result : Except WithLockError T
  fnCalls : Nat
  storeOps : Nat

/-- Embedding of RedisLockProvider.withLock (RedisLockProvider.ts lines
47-88). The ttl is normalized first; on failure the error propagates
before any store command. Then the lock is acquired with retries; on
deadline exhaustion a LOCK_TIMEOUT SessionKitError is raised and fn is
never invoked. After acquisition fn runs once and release is always
attempted: a release failure is suppressed when fn threw (the fn error
wins) and raised as releaseErr when fn succeeded. fnResult is the
outcome of the critical-section callback; releaseOk the outcome of
releaseLockIfOwned; releaseErr the SessionKitError produced by
toRedisLockError for the release failure. -/
def redisWithLock {T : Type} (ttlSeconds : JsNum)
    (retryDelayMs acquireTimeoutMs now : Nat) (attempt : Nat → Bool)
    (fnResult : Except SessionKitError T) (releaseOk : Bool)
    (releaseErr : SessionKitError) : WithLockOutcome T :=
  match normalizeTtl ttlSeconds with
  | .error msg => ⟨.error (.jsError msg), 0, 0⟩
  | .ok _ =>
    let acq := acquireLock attempt retryDelayMs acquireTimeoutMs now
    if acq.1 then
      match fnResult with
      | .error e => ⟨.error (.kit e), 1, acq.2 + 1⟩
      | .ok v =>
        if releaseOk then ⟨.ok v, 1, acq.2 + 1⟩
        else ⟨.error (.kit releaseErr), 1, acq.2 + 1⟩
    else
      ⟨.error (.kit ⟨.LOCK_TIMEOUT, "Failed to acquire lock within timeout."⟩),
       0, acq.2⟩

/-- Outcome of one RedisSessionStore command: the error message thrown
(if any), the resulting key-value contents, and the ttl passed to the
underlying store command (none when the command was never issued). -/
structure RedisOpOutcome where
  error : Option String
  kv : KV
  ttlUsed : Option Int

/-- Embedding of RedisSessionStore.set (RedisSessionStore.ts lines
57-64): normalize the ttl first (throwing before any store command),
then write the serialized record with the floored ttl. raw stands for
the codec-serialized record. -/
def redisStoreSet (kv : KV) (key raw : String) (ttlSeconds : JsNum) :
    RedisOpOutcome :=
  match normalizeTtl ttlSeconds with
  | .error msg => ⟨some msg, kv, none⟩
  | .ok ttl => ⟨none, fun k => if k = key then some raw else kv k, some ttl⟩

/-- Embedding of RedisSessionStore.touch (RedisSessionStore.ts lines
71-87): normalize the ttl first (throwing before any store command),
then extend the key expiry with the floored ttl; the stored value is not
changed. -/
def redisStoreTouch (kv : KV) (key : String) (ttlSeconds : JsNum) :
    RedisOpOutcome :=
  match normalizeTtl ttlSeconds with
  | .error msg => ⟨some msg, kv, none⟩
  | .ok ttl => ⟨none, kv, some ttl⟩

/-- Concrete rolling configuration used by the specification scenario:
ttlSeconds=120, rolling=true, renewBeforeSeconds=10 (payload and
principal carry no information). -/
def rollingCfg : SessionConfig Unit Unit :=
  ⟨120, true, none, some 10, fun _ => (), none, none, true⟩

/-- Concrete store holding one session with id s1 created at 0 and
expiring at e. -/
def sessionAt (e : Int) : SessStore Unit :=
  fun k => if k = "s1" then some ⟨(), 0, e⟩ else none

/-- Resolution outcome parameters where every store and lock call
succeeds. -/
def allOkOracles : ResolveOracles :=
  ⟨true, ⟨none, true, true, true⟩, true⟩

/-- Decidable form of the auth-context invariant: the isAuthenticated
flag agrees with all three of sessionId, session and principal being
present. -/
def authContextOk {P R : Type} (a : AuthContext P R) : Bool :=
  a.isAuthenticated ==
    (a.sessionId.isSome && a.session.isSome && a.principal.isSome)

/-- Lifts authContextOk over an optional auth-slot value. -/
def optionAuthOk {P R : Type} : Option (AuthContext P R) → Bool
  | none => true
  | some a => authContextOk a

/-- The invariant holds for the context produced by a resolution
(errors produce no context). -/
def resolveAuthOk {P R : Type} :
    Except SessionKitError (ResolveOutcome P R) → Bool
  | .error _ => true
  | .ok r => authContextOk r.auth

/-- The invariant holds for the context hydrated by signIn (errors or
hydrateContext=false write no context). -/
def signInAuthOk {P R : Type} :
    Except SessionKitError (SignInOutcome P R) → Bool
  | .error _ => true
  | .ok o => optionAuthOk o.auth

/-- Concrete token descriptor whose refresh callback always throws and
whose failure policy is revoke. -/
def refreshTok : TokenConfig Nat :=
  ⟨fun _ _ => true, fun _ => .error (), some .revoke⟩

/-- Concrete configuration with the refreshTok token descriptor. -/
def refreshCfg : SessionConfig Nat Nat :=
  ⟨60, false, none, none, fun n => n, none, some refreshTok, false⟩

/-- Concrete store holding one token session with id s1. -/
def refreshStore : SessStore Nat :=
  fun k => if k = "s1" then some ⟨7, 0, 100000⟩ else none

/-
Theorems settling the claims.
-/

/-- Helper: when every conditional set-if-absent attempt fails, the
acquisition loop reports failure whatever the fuel, clock and deadline. -/
theorem acquireLockGo_all_fail (attempt : Nat → Bool)
    (h : ∀ j, attempt j = false) (retryDelayMs deadline : Nat) :
    ∀ fuel k t, (acquireLockGo attempt retryDelayMs deadline fuel k t).1 = false := by
  intro fuel
  induction fuel with
  | zero => intro k t; rfl
  | succ n ih =>
    intro k t
    unfold acquireLockGo
    by_cases ht : t ≤ deadline
    · simp [ht, h k, ih]
    · simp [ht]

/-- C2: releaseLockIfOwned deletes the lock key exactly when the value
currently stored there equals the releasing attempt token, and leaves
every other key untouched; in particular, when another holder token tokB
is stored, a release with a different token tokA leaves tokB in place. -/
theorem release_only_if_owner (kv1 kv2 : KV) (key1 tok1 k key2 tokA tokB : String)
    (hB : kv2 key2 = some tokB) (hne : tokB ≠ tokA) :
    (releaseLockIfOwned kv1 key1 tok1 k =
      if k = key1 ∧ kv1 key1 = some tok1 then none else kv1 k) ∧
    releaseLockIfOwned kv2 key2 tokA key2 = some tokB := by
  constructor
  · unfold releaseLockIfOwned
    cases h1 : kv1 key1 with
    | none => simp [h1]
    | some current =>
      by_cases hc : current = tok1
      · subst hc
        by_cases hk : k = key1 <;> simp [hk, h1]
      · simp [hc, h1]
  · unfold releaseLockIfOwned
    rw [hB]
    simp only [if_neg hne]
    exact hB

/-- Witness for C2 at concrete contents: holder B re-acquired the lock,
holder A releases with its stale token, and the record of B survives. -/
theorem release_only_if_owner_witness :
    (fun k => if k = "lock" then some "B" else none : KV) "lock" = some "B" ∧
    ("B" : String) ≠ "A" ∧
    ((releaseLockIfOwned (fun k => if k = "lock" then some "B" else none)
        "lock" "A" "lock" =
      if ("lock" : String) = "lock" ∧
          (fun k => if k = "lock" then some "B" else none : KV) "lock" = some "A"
        then none
        else (fun k => if k = "lock" then some "B" else none : KV) "lock") ∧
      releaseLockIfOwned (fun k => if k = "lock" then some "B" else none)
        "lock" "A" "lock" = some "B") :=
  ⟨rfl, by decide,
   release_only_if_owner (fun k => if k = "lock" then some "B" else none)
     (fun k => if k = "lock" then some "B" else none)
     "lock" "A" "lock" "lock" "A" "B" rfl (by decide)⟩

/-- C7: when the conditional set-if-absent fails on every retry attempt,
withLock raises LOCK_TIMEOUT and the critical-section callback is never
invoked. -/
theorem withLock_timeout_fn_never_runs {T : Type} (ttlSeconds : JsNum) (t : Int)
    (retryDelayMs acquireTimeoutMs now : Nat) (attempt : Nat → Bool)
    (fnResult : Except SessionKitError T) (releaseOk : Bool)
    (releaseErr : SessionKitError)
    (httl : normalizeTtl ttlSeconds = .ok t)
    (hfail : ∀ k, attempt k = false) :
    (redisWithLock ttlSeconds retryDelayMs acquireTimeoutMs now attempt
        fnResult releaseOk releaseErr).result =
      .error (.kit ⟨.LOCK_TIMEOUT, "Failed to acquire lock within timeout."⟩) ∧
    (redisWithLock ttlSeconds retryDelayMs acquireTimeoutMs now attempt
        fnResult releaseOk releaseErr).fnCalls = 0 := by
  have hacq := acquireLockGo_all_fail attempt hfail retryDelayMs
    (now + acquireTimeoutMs) (acquireTimeoutMs + 1) 0 now
  unfold redisWithLock
  rw [httl]
  simp [acquireLock, hacq]

/-- Witness for C7: a held lock never yields, fn does not run. -/
theorem withLock_timeout_fn_never_runs_witness :
    normalizeTtl (.fin 10) = .ok 10 ∧
    ((redisWithLock (.fin 10) 50 5000 0 (fun _ => false)
        (.ok (7 : Nat)) true ⟨.INTERNAL_ERROR, "x"⟩).result =
      .error (.kit ⟨.LOCK_TIMEOUT, "Failed to acquire lock within timeout."⟩) ∧
     (redisWithLock (.fin 10) 50 5000 0 (fun _ => false)
        (.ok (7 : Nat)) true ⟨.INTERNAL_ERROR, "x"⟩).fnCalls = 0) :=
  ⟨rfl,
   withLock_timeout_fn_never_runs (.fin 10) 10 50 5000 0 (fun _ => false)
     (.ok (7 : Nat)) true ⟨.INTERNAL_ERROR, "x"⟩ rfl (fun _ => rfl)⟩

/-- C8: after a successful acquisition, fn runs exactly once and the
result of withLock is: the fn error when fn raised (a simultaneous
release failure is suppressed); the release failure when fn succeeded
but the release raised; and the fn return value when both succeeded. -/
theorem withLock_error_priority {T : Type} (ttlSeconds : JsNum) (t : Int)
    (retryDelayMs acquireTimeoutMs now : Nat) (attempt : Nat → Bool)
    (fnResult : Except SessionKitError T) (releaseOk : Bool)
    (releaseErr : SessionKitError)
    (httl : normalizeTtl ttlSeconds = .ok t)
    (hacq : (acquireLock attempt retryDelayMs acquireTimeoutMs now).1 = true) :
    (redisWithLock ttlSeconds retryDelayMs acquireTimeoutMs now attempt
        fnResult releaseOk releaseErr).result =
      (match fnResult with
       | .error e => .error (.kit e)
       | .ok v => if releaseOk then .ok v else .error (.kit releaseErr)) ∧
    (redisWithLock ttlSeconds retryDelayMs acquireTimeoutMs now attempt
        fnResult releaseOk releaseErr).fnCalls = 1 := by
  unfold redisWithLock
  rw [httl]
  cases fnResult with
  | error e => simp [hacq]
  | ok v => by_cases hr : releaseOk <;> simp [hacq, hr]

/-- Witness for C8: immediate acquisition, fn raises and the release
also fails; the fn error is the result and fn ran once. -/
theorem withLock_error_priority_witness :
    normalizeTtl (.fin 10) = .ok 10 ∧
    (acquireLock (fun _ => true) 50 5000 0).1 = true ∧
    ((redisWithLock (.fin 10) 50 5000 0 (fun _ => true)
        (.error ⟨.STORE_UNAVAILABLE, "boom"⟩ : Except SessionKitError Nat)
        false ⟨.INTERNAL_ERROR, "rel"⟩).result =
      (match (.error ⟨.STORE_UNAVAILABLE, "boom"⟩ : Except SessionKitError Nat) with
       | .error e => .error (.kit e)
       | .ok v => if false = true then .ok v
                  else .error (.kit ⟨.INTERNAL_ERROR, "rel"⟩)) ∧
     (redisWithLock (.fin 10) 50 5000 0 (fun _ => true)
        (.error ⟨.STORE_UNAVAILABLE, "boom"⟩ : Except SessionKitError Nat)
        false ⟨.INTERNAL_ERROR, "rel"⟩).fnCalls = 1) :=
  ⟨rfl, by decide,
   by
    have h := withLock_error_priority (.fin 10) 10 50 5000 0 (fun _ => true)
      (.error ⟨.STORE_UNAVAILABLE, "boom"⟩ : Except SessionKitError Nat)
      false ⟨.INTERNAL_ERROR, "rel"⟩ rfl (by decide)
    exact ⟨h.1, h.2⟩⟩

/-- C10: a ttlSeconds whose floor is not a finite positive integer is
rejected with the error "ttlSeconds must be a positive integer." by
normalizeTtl, and RedisLockProvider.withLock, RedisSessionStore.set and
RedisSessionStore.touch all raise it before issuing any store command,
leaving the backing store unchanged; for a valid input the ttl used is
the floor of ttlSeconds. -/
theorem normalizeTtl_guards_store_ops {T : Type} (tbad : JsNum) (qg : ℚ)
    (kv : KV) (key raw : String) (retryDelayMs acquireTimeoutMs now : Nat)
    (attempt : Nat → Bool) (fnResult : Except SessionKitError T)
    (releaseOk : Bool) (releaseErr : SessionKitError)
    (hbad : ∀ q : ℚ, tbad = .fin q → q.floor ≤ 0)
    (hgood : 0 < qg.floor) :
    normalizeTtl tbad = .error "ttlSeconds must be a positive integer." ∧
    redisStoreSet kv key raw tbad =
      ⟨some "ttlSeconds must be a positive integer.", kv, none⟩ ∧
    redisStoreTouch kv key tbad =
      ⟨some "ttlSeconds must be a positive integer.", kv, none⟩ ∧
    redisWithLock tbad retryDelayMs acquireTimeoutMs now attempt fnResult
        releaseOk releaseErr =
      ⟨.error (.jsError "ttlSeconds must be a positive integer."), 0, 0⟩ ∧
    normalizeTtl (.fin qg) = .ok qg.floor ∧
    (redisStoreSet kv key raw (.fin qg)).ttlUsed = some qg.floor ∧
    (redisStoreTouch kv key (.fin qg)).ttlUsed = some qg.floor := by
  have herr : normalizeTtl tbad = .error "ttlSeconds must be a positive integer." := by
    cases tbad with
    | nan => rfl
    | posInf => rfl
    | negInf => rfl
    | fin q =>
      have hq := hbad q rfl
      simp [normalizeTtl, hq]
  have hok : normalizeTtl (.fin qg) = .ok qg.floor := by
    have hq : ¬ qg.floor ≤ 0 := by omega
    simp [normalizeTtl, hq]
  refine ⟨herr, ?_, ?_, ?_, hok, ?_, ?_⟩
  · unfold redisStoreSet; rw [herr]
  · unfold redisStoreTouch; rw [herr]
  · unfold redisWithLock; rw [herr]
  · unfold redisStoreSet; rw [hok]
  · unfold redisStoreTouch; rw [hok]

/-- Witness for C10: NaN is rejected everywhere with the store left
untouched, while 5/2 is floored to ttl 2. -/
theorem normalizeTtl_guards_store_ops_witness :
    0 < (Rat.divInt 5 2).floor ∧
    (normalizeTtl .nan = .error "ttlSeconds must be a positive integer." ∧
     redisStoreSet (fun _ => none) "k" "v" .nan =
       ⟨some "ttlSeconds must be a positive integer.", fun _ => none, none⟩ ∧
     redisStoreTouch (fun _ => none) "k" .nan =
       ⟨some "ttlSeconds must be a positive integer.", fun _ => none, none⟩ ∧
     redisWithLock .nan 50 5000 0 (fun _ => true) (.ok (0 : Nat))
         true ⟨.INTERNAL_ERROR, "rel"⟩ =
       ⟨.error (.jsError "ttlSeconds must be a positive integer."), 0, 0⟩ ∧
     normalizeTtl (.fin (Rat.divInt 5 2)) = .ok (Rat.divInt 5 2).floor ∧
     (redisStoreSet (fun _ => none) "k" "v" (.fin (Rat.divInt 5 2))).ttlUsed =
       some (Rat.divInt 5 2).floor ∧
     (redisStoreTouch (fun _ => none) "k" (.fin (Rat.divInt 5 2))).ttlUsed =
       some (Rat.divInt 5 2).floor) :=
  ⟨by decide,
   normalizeTtl_guards_store_ops .nan (Rat.divInt 5 2) (fun _ => none) "k" "v"
     50 5000 0 (fun _ => true) (.ok (0 : Nat)) true ⟨.INTERNAL_ERROR, "rel"⟩
     (fun q h => nomatch h) (by decide)⟩

/-- C6: when the store delete fails during signOut with
alwaysClearCookie set to false, a STORE_UNAVAILABLE error propagates and
neither the cookie clearing nor the auth-slot reset happens; with
alwaysClearCookie true (explicitly or by default) the delete error is
swallowed and the cookie is cleared and the auth slot reset to
unauthenticated regardless. -/
theorem signOut_delete_failure_policy {P R : Type} (store : SessStore P)
    (sid : String) :
    (signOut (P := P) (R := R) store (some sid) (some false) false =
      (⟨store, false, none⟩,
       some ⟨.STORE_UNAVAILABLE, "Failed to delete session."⟩)) ∧
    (signOut (P := P) (R := R) store (some sid) none false =
      (⟨store, true, some unauthContext⟩, none)) ∧
    (signOut (P := P) (R := R) store (some sid) (some true) false =
      (⟨store, true, some unauthContext⟩, none)) :=
  ⟨rfl, rfl, rfl⟩

/-- Helper: the payload transformer may change only the payload, never
the stored expiry. -/
theorem applyTransformer_expiresAt {P R : Type} (cfg : SessionConfig P R)
    (stored s' : StoredSession P) (h : applyTransformer cfg stored = .ok s') :
    s'.expiresAt = stored.expiresAt := by
  unfold applyTransformer at h
  cases hf : cfg.payloadTransformer with
  | none => simp only [hf] at h; cases h; rfl
  | some f =>
    simp only [hf] at h
    cases hp : f stored.payload with
    | ok p => simp only [hp] at h; cases h; rfl
    | error e => simp only [hp] at h; cases h

/-- C5: a resolution that reads a stored session with now ≥ expiresAt
returns the unauthenticated context, clears the transport cookie,
raises no error, and leaves the store record in place. -/
theorem resolve_expired_session_unauthenticated {P R : Type}
    (cfg : SessionConfig P R) (store : SessStore P) (sid : String)
    (stored : StoredSession P) (now : Int) (orc : ResolveOracles)
    (hget : orc.getOk = true)
    (hsid : store sid = some stored)
    (hexp : now ≥ stored.expiresAt) :
    buildAuthContext cfg store (some sid) now orc =
      .ok ⟨unauthContext, store, true, false⟩ := by
  unfold buildAuthContext
  rw [hget]
  simp only [if_true, hsid]
  cases ht : applyTransformer cfg stored with
  | error e => simp
  | ok s' =>
    have he : now ≥ s'.expiresAt := by
      rw [applyTransformer_expiresAt cfg stored s' ht]; exact hexp
    simp [he]

/-- Witness for C5: a record that expired one millisecond ago resolves
unauthenticated with the cookie cleared. -/
theorem resolve_expired_session_unauthenticated_witness :
    (⟨true, ⟨none, true, true, true⟩, true⟩ : ResolveOracles).getOk = true ∧
    (fun k => if k = "s1" then some ⟨0, 0, 100⟩ else none : SessStore Nat) "s1" =
      some ⟨0, 0, 100⟩ ∧
    ((100 : Int) ≥ (⟨0, 0, 100⟩ : StoredSession Nat).expiresAt) ∧
    buildAuthContext
        (⟨60, false, none, none, fun n => n, none, none, false⟩ :
          SessionConfig Nat Nat)
        (fun k => if k = "s1" then some ⟨0, 0, 100⟩ else none)
        (some "s1") 100 ⟨true, ⟨none, true, true, true⟩, true⟩ =
      .ok ⟨unauthContext, fun k => if k = "s1" then some ⟨0, 0, 100⟩ else none,
           true, false⟩ :=
  ⟨rfl, rfl, by decide,
   resolve_expired_session_unauthenticated
     (⟨60, false, none, none, fun n => n, none, none, false⟩ :
       SessionConfig Nat Nat)
     (fun k => if k = "s1" then some ⟨0, 0, 100⟩ else none)
     "s1" ⟨0, 0, 100⟩ 100 ⟨true, ⟨none, true, true, true⟩, true⟩
     rfl rfl (by decide)⟩

/-- Helper: the rolling touch never changes the shape of the auth
context (flag, id, principal, and presence of the session). -/
theorem authContextOk_maybeTouch {P R : Type} (cfg : SessionConfig P R)
    (sid : String) (rb ttl : Int) (auth : AuthContext P R)
    (store : SessStore P) (now : Int) (touchOk : Bool) :
    authContextOk (maybeTouch cfg sid rb ttl auth store now touchOk).auth =
      authContextOk auth := by
  simp only [maybeTouch]
  split
  · rfl
  · split
    · split
      · simp [authContextOk]
      · split <;> simp [authContextOk, *]
    · rfl

/-- C9: every auth context the engine produces or returns — from the
middleware resolution, from signIn context hydration, from the signOut
reset, and from the getAuth fallback when nothing is attached —
satisfies: isAuthenticated is true exactly when sessionId, session and
principal are all present. -/
theorem auth_flag_matches_fields {P R : Type} (cfg : SessionConfig P R)
    (store store2 : SessStore P) (cookie cookie2 : Option String)
    (now now2 : Int) (orc : ResolveOracles) (sid : String) (payload : P)
    (optTtl : Option Int) (hyd acc : Option Bool) (setOk delOk : Bool) :
    resolveAuthOk (buildAuthContext cfg store cookie now orc) = true ∧
    signInAuthOk (signIn cfg store now2 sid payload optTtl hyd setOk) = true ∧
    optionAuthOk ((signOut (P := P) (R := R) store2 cookie2 acc delOk).1.auth)
      = true ∧
    authContextOk (getAuth (P := P) (R := R) none) = true := by
  refine ⟨?_, ?_, ?_, rfl⟩
  · unfold buildAuthContext
    cases cookie with
    | none => rfl
    | some s =>
      cases hg : orc.getOk with
      | false => simp [resolveAuthOk]
      | true =>
        simp only [if_true]
        cases hs : store s with
        | none => simp [hs, resolveAuthOk, authContextOk, unauthContext]
        | some stored0 =>
          cases ht : applyTransformer cfg stored0 with
          | error e => simp [hs, ht, resolveAuthOk, authContextOk, unauthContext]
          | ok stored =>
            by_cases he : now ≥ stored.expiresAt
            · simp [hs, ht, he, resolveAuthOk, authContextOk, unauthContext]
            · simp only [hs, ht, he, if_false]
              cases hm : maybeRefreshTokenSession cfg store s stored now
                  orc.refresh with
              | error e => simp [hm, resolveAuthOk]
              | ok mr =>
                cases hsess : mr.session with
                | none => simp [hm, hsess, resolveAuthOk, authContextOk, unauthContext]
                | some st =>
                  cases hr : cfg.rolling with
                  | false => simp [hm, hsess, hr, resolveAuthOk, authContextOk]
                  | true =>
                    simp only [hm, hsess, hr, if_true, resolveAuthOk]
                    rw [authContextOk_maybeTouch]
                    simp [authContextOk]
  · unfold signIn
    cases setOk with
    | false => rfl
    | true =>
      cases hh : hyd.getD true with
      | false => simp [hh, signInAuthOk, optionAuthOk]
      | true => simp [hh, signInAuthOk, optionAuthOk, authContextOk]
  · unfold signOut
    cases cookie2 with
    | none => rfl
    | some s =>
      cases delOk with
      | true => rfl
      | false =>
        cases ha : acc.getD true with
        | false => simp [ha, optionAuthOk]
        | true => simp [ha, optionAuthOk, authContextOk, unauthContext]

/-- Helper: the rolling touch never changes the isAuthenticated flag,
the principal or the session id of the auth context. -/
theorem maybeTouch_auth_fields {P R : Type} (cfg : SessionConfig P R)
    (sid : String) (rb ttl : Int) (auth : AuthContext P R)
    (store : SessStore P) (now : Int) (touchOk : Bool) :
    (maybeTouch cfg sid rb ttl auth store now touchOk).auth.isAuthenticated
        = auth.isAuthenticated ∧
    (maybeTouch cfg sid rb ttl auth store now touchOk).auth.principal
        = auth.principal ∧
    (maybeTouch cfg sid rb ttl auth store now touchOk).auth.sessionId
        = auth.sessionId := by
  simp only [maybeTouch]
  split
  · exact ⟨rfl, rfl, rfl⟩
  · split
    · split
      · exact ⟨rfl, rfl, rfl⟩
      · split
        · exact ⟨rfl, rfl, rfl⟩
        · exact ⟨rfl, rfl, rfl⟩
    · exact ⟨rfl, rfl, rfl⟩

/-- C1: signIn with payload P and positive ttl, followed immediately by
a resolution of a request carrying the cookie signIn set, with no
intervening store mutation and before expiry, yields an authenticated
context whose principal is principalFactory(P) for the signed-in
session id. -/
theorem signIn_then_resolve_authenticated {P R : Type}
    (cfg : SessionConfig P R) (store : SessStore P) (now now2 : Int)
    (sid : String) (payload : P) (optTtl : Option Int) (hyd : Option Bool)
    (orc : ResolveOracles)
    (htok : cfg.token = none)
    (htr : cfg.payloadTransformer = none)
    (hget : orc.getOk = true)
    (hT : 0 < optTtl.getD cfg.ttlSeconds)
    (hnow2 : now2 < now + secondsToMs (optTtl.getD cfg.ttlSeconds)) :
    (signIn cfg store now sid payload optTtl hyd true).map (fun o =>
      (buildAuthContext cfg o.store o.cookie now2 orc).map (fun r =>
        (r.auth.isAuthenticated, r.auth.principal, r.auth.sessionId)))
    = .ok (.ok (true, some (cfg.principalFactory payload), some sid)) := by
  simp only [signIn, if_true, Except.map]
  unfold buildAuthContext
  rw [hget]
  have hlook : storeSet store sid
      ⟨payload, now, now + secondsToMs (optTtl.getD cfg.ttlSeconds)⟩ sid =
      some ⟨payload, now, now + secondsToMs (optTtl.getD cfg.ttlSeconds)⟩ := by
    simp [storeSet]
  simp only [if_true, hlook]
  have htrans : applyTransformer cfg
      ⟨payload, now, now + secondsToMs (optTtl.getD cfg.ttlSeconds)⟩ =
      .ok ⟨payload, now, now + secondsToMs (optTtl.getD cfg.ttlSeconds)⟩ := by
    simp [applyTransformer, htr]
  simp only [htrans]
  have hlive : ¬ (now2 ≥
      (⟨payload, now, now + secondsToMs (optTtl.getD cfg.ttlSeconds)⟩ :
        StoredSession P).expiresAt) := by
    simp only [ge_iff_le, not_le]
    exact hnow2
  simp only [hlive, if_false]
  have hrefresh : maybeRefreshTokenSession cfg
      (storeSet store sid
        ⟨payload, now, now + secondsToMs (optTtl.getD cfg.ttlSeconds)⟩)
      sid ⟨payload, now, now + secondsToMs (optTtl.getD cfg.ttlSeconds)⟩
      now2 orc.refresh =
      .ok ⟨some ⟨payload, now, now + secondsToMs (optTtl.getD cfg.ttlSeconds)⟩,
           storeSet store sid
             ⟨payload, now, now + secondsToMs (optTtl.getD cfg.ttlSeconds)⟩,
           false⟩ := by
    unfold maybeRefreshTokenSession
    rw [htok]
  simp only [hrefresh]
  cases hr : cfg.rolling with
  | false => simp
  | true =>
    simp only [if_true]
    have hf := maybeTouch_auth_fields cfg sid (defaultRenewBeforeSeconds cfg)
      cfg.ttlSeconds
      ⟨some sid, some ⟨payload, now, now + secondsToMs (optTtl.getD cfg.ttlSeconds)⟩,
       some (cfg.principalFactory payload), true⟩
      (storeSet store sid
        ⟨payload, now, now + secondsToMs (optTtl.getD cfg.ttlSeconds)⟩)
      now2 orc.touchOk
    simp [hf.1, hf.2.1, hf.2.2]

/-- Witness for C1: sign in payload 7 with ttl 120 and resolve at the
same instant; the request is authenticated as principal 8. -/
theorem signIn_then_resolve_authenticated_witness :
    ((⟨120, true, none, some 10, fun n => n + 1, none, none, true⟩ :
        SessionConfig Nat Nat).token = none) ∧
    (0 : Int) < (Option.none.getD
      (⟨120, true, none, some 10, fun n => n + 1, none, none, true⟩ :
        SessionConfig Nat Nat).ttlSeconds) ∧
    ((signIn (⟨120, true, none, some 10, fun n => n + 1, none, none, true⟩ :
          SessionConfig Nat Nat)
        (fun _ => none) 0 "s1" 7 none none true).map (fun o =>
      (buildAuthContext
          (⟨120, true, none, some 10, fun n => n + 1, none, none, true⟩ :
            SessionConfig Nat Nat)
          o.store o.cookie 0 allOkOracles).map (fun r =>
        (r.auth.isAuthenticated, r.auth.principal, r.auth.sessionId)))
      = .ok (.ok (true, some 8, some "s1"))) :=
  ⟨rfl, by decide,
   signIn_then_resolve_authenticated
     (⟨120, true, none, some 10, fun n => n + 1, none, none, true⟩ :
       SessionConfig Nat Nat)
     (fun _ => none) 0 0 "s1" 7 none none allOkOracles
     rfl rfl rfl (by decide) (by decide)⟩

/-- Helper: when the store call succeeds, the rolling touch fires
exactly when floor((expiresAt - now)/1000) ≤ the threshold. -/
theorem maybeTouch_touched {P R : Type} (cfg : SessionConfig P R)
    (sid : String) (rb ttl : Int) (auth : AuthContext P R)
    (store : SessStore P) (now : Int) (touchOk : Bool)
    (hok : touchOk = true) :
    (maybeTouch cfg sid rb ttl auth store now touchOk).touched =
      decide (((auth.session.map StoredSession.expiresAt).getD 0 - now).fdiv 1000
        ≤ rb) := by
  simp only [maybeTouch, hok]
  by_cases h :
      ((auth.session.map StoredSession.expiresAt).getD 0 - now).fdiv 1000 > rb
  · rw [if_pos h]
    simp [not_le.mpr h]
  · rw [if_neg h]
    have hle := not_lt.mp h
    simp only [if_true]
    split
    · simp [hle]
    · split <;> simp [hle]

/-- C3: with rolling enabled, a resolution of a valid session attempts a
touch exactly when floor((expiresAt - now)/1000) is at most
renewBeforeSeconds ?? touchEverySeconds ?? 60; with ttlSeconds=120 and
renewBeforeSeconds=10, a resolution with 90 seconds remaining performs
no touch and one with 5 seconds remaining performs the touch and extends
expiresAt to now + 120000. -/
theorem rolling_touch_iff_remaining_le_threshold {P R : Type}
    (cfg : SessionConfig P R) (store : SessStore P) (sid : String)
    (stored : StoredSession P) (now : Int) (orc : ResolveOracles)
    (hroll : cfg.rolling = true)
    (htok : cfg.token = none)
    (htr : cfg.payloadTransformer = none)
    (hget : orc.getOk = true)
    (htouch : orc.touchOk = true)
    (hsid : store sid = some stored)
    (hexp : now < stored.expiresAt) :
    ((buildAuthContext cfg store (some sid) now orc).map (fun r => r.touched)
      = .ok (decide ((stored.expiresAt - now).fdiv 1000 ≤
          cfg.renewBeforeSeconds.getD (cfg.touchEverySeconds.getD 60)))) ∧
    ((buildAuthContext rollingCfg (sessionAt 90000) (some "s1") 0 allOkOracles).map
        (fun r => r.touched) = .ok false) ∧
    ((buildAuthContext rollingCfg (sessionAt 5000) (some "s1") 0 allOkOracles).map
        (fun r => (r.touched, r.auth.session.map StoredSession.expiresAt))
      = .ok (true, some 120000)) := by
  refine ⟨?_, rfl, rfl⟩
  unfold buildAuthContext
  rw [hget]
  simp only [if_true, hsid]
  have htrans : applyTransformer cfg stored = .ok stored := by
    simp [applyTransformer, htr]
  simp only [htrans]
  have hlive : ¬ (now ≥ stored.expiresAt) := not_le.mpr hexp
  simp only [hlive, if_false]
  have hrefresh : maybeRefreshTokenSession cfg store sid stored now orc.refresh
      = .ok ⟨some stored, store, false⟩ := by
    unfold maybeRefreshTokenSession
    rw [htok]
  simp only [hrefresh, hroll, if_true]
  have ht := maybeTouch_touched cfg sid (defaultRenewBeforeSeconds cfg)
    cfg.ttlSeconds
    ⟨some sid, some stored, some (cfg.principalFactory stored.payload), true⟩
    store now orc.touchOk htouch
  simp only [Except.map]
  rw [ht]
  simp [defaultRenewBeforeSeconds]

/-- Witness for C3 at the specification scenario: ttlSeconds=120,
renewBeforeSeconds=10, session with 90 seconds remaining resolved at
time 0 — no touch fires. -/
theorem rolling_touch_iff_remaining_le_threshold_witness :
    sessionAt 90000 "s1" = some ⟨(), 0, 90000⟩ ∧
    ((0 : Int) < (⟨(), 0, 90000⟩ : StoredSession Unit).expiresAt) ∧
    (((buildAuthContext rollingCfg (sessionAt 90000) (some "s1") 0
          allOkOracles).map (fun r => r.touched)
        = .ok (decide (((⟨(), 0, 90000⟩ : StoredSession Unit).expiresAt -
            (0 : Int)).fdiv 1000 ≤
          rollingCfg.renewBeforeSeconds.getD
            (rollingCfg.touchEverySeconds.getD 60)))) ∧
     ((buildAuthContext rollingCfg (sessionAt 90000) (some "s1") 0
          allOkOracles).map (fun r => r.touched) = .ok false) ∧
     ((buildAuthContext rollingCfg (sessionAt 5000) (some "s1") 0
          allOkOracles).map
          (fun r => (r.touched, r.auth.session.map StoredSession.expiresAt))
        = .ok (true, some 120000))) :=
  ⟨rfl, by decide,
   rolling_touch_iff_remaining_le_threshold rollingCfg (sessionAt 90000) "s1"
     ⟨(), 0, 90000⟩ 0 allOkOracles rfl rfl rfl rfl rfl rfl (by decide)⟩

/-- C4: within the lock-guarded token refresh, an error raised by the
critical section or the lock machinery is converted into an
unauthenticated outcome (session none, cookie cleared, revoke or keep
per onRefreshFail) exactly when its code is TOKEN_REFRESH_FAILED, and
propagates unchanged to the caller otherwise; the refresh callback
throwing is what produces the TOKEN_REFRESH_FAILED error. -/
theorem refresh_error_routing {P R : Type} (cfg : SessionConfig P R)
    (tok : TokenConfig P) (store : SessStore P) (sid : String)
    (stored latest : StoredSession P) (now : Int)
    (orc1 orc2 : RefreshOracles) (e : SessionKitError) (dOk : Bool)
    (htok : cfg.token = some tok)
    (hsh : tok.shouldRefresh stored.payload now = true)
    (he1 : lockedRefreshResult cfg tok store sid now orc1 = .error e)
    (hl2 : orc2.lockFail = none)
    (hg2 : orc2.innerGetOk = true)
    (hlat : store sid = some latest)
    (hexp2 : now < latest.expiresAt)
    (hsh2 : tok.shouldRefresh latest.payload now = true)
    (href : tok.refresh latest.payload = .error ()) :
    (maybeRefreshTokenSession cfg store sid stored now orc1 =
      if e.code = .TOKEN_REFRESH_FAILED
      then .ok (refreshFailureOutcome tok store sid orc1.revokeDelOk)
      else .error e) ∧
    (lockedRefreshResult cfg tok store sid now orc2 =
      .error ⟨.TOKEN_REFRESH_FAILED, "Failed to refresh token."⟩) ∧
    (maybeRefreshTokenSession cfg store sid stored now orc2 =
      .ok (refreshFailureOutcome tok store sid orc2.revokeDelOk)) ∧
    (refreshFailureOutcome tok store sid dOk).session = none ∧
    (refreshFailureOutcome tok store sid dOk).cookieCleared = true ∧
    (refreshFailureOutcome tok store sid dOk).store =
      (if tok.onRefreshFail.getD .unauth = .revoke ∧ dOk
       then storeDel store sid else store) := by
  have hcs : lockedRefreshResult cfg tok store sid now orc2 =
      .error ⟨.TOKEN_REFRESH_FAILED, "Failed to refresh token."⟩ := by
    unfold lockedRefreshResult
    rw [hl2]
    unfold refreshCriticalSection
    rw [hg2]
    simp only [if_true, hlat]
    have hlive : ¬ (now ≥ latest.expiresAt) := not_le.mpr hexp2
    simp only [hlive, if_false, hsh2, if_true]
    rw [href]
  refine ⟨?_, hcs, ?_, rfl, rfl, rfl⟩
  · unfold maybeRefreshTokenSession
    rw [htok]
    simp only [hsh, if_true]
    rw [he1]
  · unfold maybeRefreshTokenSession
    rw [htok]
    simp only [hsh, if_true]
    rw [hcs]
    rfl

/-- Witness for C4: a LOCK_TIMEOUT raised by the lock machinery
propagates unchanged, while the throwing refresh callback yields
TOKEN_REFRESH_FAILED and an unauthenticated outcome with the session
revoked. -/
theorem refresh_error_routing_witness :
    refreshCfg.token = some refreshTok ∧
    refreshStore "s1" = some ⟨7, 0, 100000⟩ ∧
    ((5 : Int) < (⟨7, 0, 100000⟩ : StoredSession Nat).expiresAt) ∧
    ((maybeRefreshTokenSession refreshCfg refreshStore "s1" ⟨7, 0, 100000⟩ 5
        ⟨some ⟨.LOCK_TIMEOUT, "lt"⟩, true, true, true⟩ =
      if (⟨.LOCK_TIMEOUT, "lt"⟩ : SessionKitError).code = .TOKEN_REFRESH_FAILED
      then .ok (refreshFailureOutcome refreshTok refreshStore "s1"
        (⟨some ⟨.LOCK_TIMEOUT, "lt"⟩, true, true, true⟩ :
          RefreshOracles).revokeDelOk)
      else .error ⟨.LOCK_TIMEOUT, "lt"⟩) ∧
     (lockedRefreshResult refreshCfg refreshTok refreshStore "s1" 5
        ⟨none, true, true, true⟩ =
      .error ⟨.TOKEN_REFRESH_FAILED, "Failed to refresh token."⟩) ∧
     (maybeRefreshTokenSession refreshCfg refreshStore "s1" ⟨7, 0, 100000⟩ 5
        ⟨none, true, true, true⟩ =
      .ok (refreshFailureOutcome refreshTok refreshStore "s1"
        (⟨none, true, true, true⟩ : RefreshOracles).revokeDelOk)) ∧
     (refreshFailureOutcome refreshTok refreshStore "s1" true).session = none ∧
     (refreshFailureOutcome refreshTok refreshStore "s1" true).cookieCleared
       = true ∧
     (refreshFailureOutcome refreshTok refreshStore "s1" true).store =
       (if refreshTok.onRefreshFail.getD .unauth = .revoke ∧ true
        then storeDel refreshStore "s1" else refreshStore)) :=
  ⟨rfl, rfl, by decide,
   refresh_error_routing refreshCfg refreshTok refreshStore "s1"
     ⟨7, 0, 100000⟩ ⟨7, 0, 100000⟩ 5
     ⟨some ⟨.LOCK_TIMEOUT, "lt"⟩, true, true, true⟩
     ⟨none, true, true, true⟩ ⟨.LOCK_TIMEOUT, "lt"⟩ true
     rfl rfl rfl rfl rfl rfl (by decide) rfl rfl⟩

end SessionKitModel
